import Mathlib

/-!
Shallow embedding of `src/leaders.js`.

The script has two parts:
* `makeTable(headers, rows)` — a pure construction of a `<table>` element:
  a `<thead>` with one `<th>` per header (its `textContent` set to the
  header), and a `<tbody>` with one `<tr>` per row and one `<td>` per cell
  (its `textContent` set to the cell value, which the DOM coerces to a
  string).  We model the resulting element by the observable structure the
  spec talks about: the ordered header-cell texts and the ordered body rows
  of cell texts.  Inline styles are presentational only and not modelled.
* a fetch-then-render pipeline that extracts four leaderboard arrays from
  the JSON document, shapes each record into a row, and injects one table
  per present display region; errors (network, parse, or exceptions thrown
  while rendering) fall to a single catch handler.

JavaScript values reaching the renderer are modelled by `JVal`; JSON
numbers are modelled by `Rat`.
-/

/-- Values of the dynamic language: the JSON data, the cell values built by
the row-mapping code (numbers such as the rank `i + 1`, strings from
template literals, raw record fields which may be `undefined` when a key is
missing), and the document itself. -/
inductive JVal where
  | undef
  | null
  | bool (b : Bool)
  | num (q : Rat)
  | str (s : String)
  | arr (elems : List JVal)
  | obj (fields : List (String × JVal))

/-- Modelled from the platform: `Number.prototype.toFixed(1)` — one decimal
digit, rounding half away from zero.  (The engine rounds the underlying
double; for the values this script handles the two agree.) -/
def toFixed1 (q : Rat) : String :=
  let scaled : Int := if 0 ≤ q then (q * 10 + 1 / 2).floor else -((-q * 10 + 1 / 2).floor)
  let sign := if scaled < 0 then "-" else ""
  sign ++ toString (scaled.natAbs / 10) ++ "." ++ toString (scaled.natAbs % 10)

/-- Modelled from the platform: JavaScript number-to-string coercion.
Exact for integers, which are the only numbers this script coerces directly
(ranks, point totals, games played); non-integral numbers reach strings
only through `toFixed(1)`, modelled separately by `toFixed1`. -/
def ratToJsString (q : Rat) : String :=
  if q.den = 1 then toString q.num else toFixed1 q

/-- Modelled from the platform: JavaScript string coercion of a value that
is not an array. -/
def jvalScalarToString : JVal → String
  | JVal.undef => "undefined"
  | .null => "null"
  | .bool b => if b then "true" else "false"
  | .num q => ratToJsString q
  | .str s => s
  | .arr _ => ""
  | .obj _ => "[object Object]"

/-- Modelled from the platform: JavaScript string coercion, as performed by
assigning a value to `textContent`.  An array joins its elements with
commas, `null` and `undefined` elements becoming empty (modelled to one
level of nesting; the script only ever coerces scalar cells). -/
def jvalToString : JVal → String
  | .arr xs =>
      String.intercalate "," (xs.map fun v =>
        match v with
        | JVal.undef => ""
        | .null => ""
        | w => jvalScalarToString w)
  | v => jvalScalarToString v

/-- Observable structure of the `<table>` element `makeTable` returns: the
header-cell texts in document order and the body rows of cell texts in
document order. -/
structure Table where
  headerCells : List String
  bodyRows : List (List String)
deriving DecidableEq

/-- Embedding of `makeTable(headers, rows)` (src/leaders.js lines 1-35):
for each header a `<th>` whose `textContent` is that header, then for each
row a `<tr>` holding one `<td>` per cell whose `textContent` is the
string coercion of the cell value, in input order. -/
def makeTable (headers : List String) (rows : List (List JVal)) : Table :=
  { headerCells := headers.map (fun h => h)
    bodyRows := rows.map (fun row => row.map (fun cell => jvalToString cell)) }

/-- C1: for every header sequence and every row sequence whose rows all
have the header count, `makeTable` yields a table with one header cell per
header and one body row per input row, the j-th cell of the i-th body row
being the string form of the j-th value of the i-th input row, with headers
and rows in exactly the input order. -/
theorem makeTable_renders_in_order (H : List String) (R : List (List JVal))
    (hlen : ∀ r ∈ R, r.length = H.length) :
    (makeTable H R).headerCells.length = H.length ∧
    (makeTable H R).bodyRows.length = R.length ∧
    (∀ j : Nat, (makeTable H R).headerCells[j]? = H[j]?) ∧
    (∀ i j : Nat, ((makeTable H R).bodyRows[i]?.bind (fun row => row[j]?)) =
      (R[i]?.bind (fun row => row[j]?)).map jvalToString) := by
  refine ⟨by simp [makeTable], by simp [makeTable], fun j => by simp [makeTable], fun i j => ?_⟩
  simp only [makeTable, List.getElem?_map]
  cases R[i]? with
  | none => rfl
  | some row => simp [List.getElem?_map]

theorem makeTable_renders_in_order_witness :
    (makeTable ["#"] [[JVal.num 1]]).bodyRows.length = 1 ∧
    ((makeTable ["#"] [[JVal.num 1]]).bodyRows[0]?.bind (fun row => row[0]?)) =
      some (jvalToString (JVal.num 1)) := by
  have h := makeTable_renders_in_order ["#"] [[JVal.num 1]]
    (by intro r hr; simp only [List.mem_singleton] at hr; subst hr; rfl)
  exact ⟨h.2.1, by rw [h.2.2.2 0 0]; rfl⟩

/-- C2: for every header sequence and every row sequence, including ragged
ones, `makeTable` is total (the embedding is a function — no exception is
raised), and each body row holds exactly one cell per value supplied in
that input row, regardless of the header count: short rows yield fewer
cells, long rows keep all their cells. -/
theorem makeTable_ragged_rows_safe :
    ∀ (H : List String) (R : List (List JVal)),
      (makeTable H R).bodyRows.length = R.length ∧
      (∀ i : Nat, ((makeTable H R).bodyRows[i]?).map List.length = (R[i]?).map List.length) ∧
      (∀ i : Nat, (makeTable H R).bodyRows[i]? =
        (R[i]?).map (fun row => row.map (fun cell => jvalToString cell))) := by
  intro H R
  refine ⟨by simp [makeTable], fun i => ?_, fun i => ?_⟩
  · simp only [makeTable, List.getElem?_map]
    cases R[i]? <;> simp
  · simp [makeTable, List.getElem?_map]

/-- C3: `makeTable H []` has one header cell per header and zero body rows;
`makeTable [] R` has zero header cells and one body row per input row, each
rendering its given values. -/
theorem makeTable_empty_cases :
    ∀ (H : List String) (R : List (List JVal)),
      (makeTable H []).headerCells.length = H.length ∧
      (makeTable H []).bodyRows = [] ∧
      (makeTable [] R).headerCells = [] ∧
      (makeTable [] R).bodyRows.length = R.length ∧
      (∀ i : Nat, (makeTable [] R).bodyRows[i]? =
        (R[i]?).map (fun row => row.map (fun cell => jvalToString cell))) := by
  intro H R
  exact ⟨by simp [makeTable], rfl, rfl, by simp [makeTable],
    fun i => by simp [makeTable, List.getElem?_map]⟩

/-- C4: `makeTable` is deterministic — two calls on identical headers and
identical rows produce tables with identical header text sequences and
identical per-row cell text sequences.  (DOM node identities, the
platform-assigned internal identifiers, are outside the observable
structure modelled by `Table`.) -/
theorem makeTable_deterministic (H₁ H₂ : List String) (R₁ R₂ : List (List JVal))
    (hH : H₁ = H₂) (hR : R₁ = R₂) :
    (makeTable H₁ R₁).headerCells = (makeTable H₂ R₂).headerCells ∧
    (makeTable H₁ R₁).bodyRows = (makeTable H₂ R₂).bodyRows := by
  subst hH; subst hR; exact ⟨rfl, rfl⟩

theorem makeTable_deterministic_witness :
    (makeTable ["#"] [[JVal.num 1]]).headerCells =
      (makeTable ["#"] [[JVal.num 1]]).headerCells ∧
    (makeTable ["#"] [[JVal.num 1]]).bodyRows =
      (makeTable ["#"] [[JVal.num 1]]).bodyRows :=
  makeTable_deterministic ["#"] ["#"] [[JVal.num 1]] [[JVal.num 1]] rfl rfl

/-- Lookup of a key in a JavaScript object's field list. -/
def jField (fs : List (String × JVal)) (k : String) : Option JVal :=
  (fs.find? (fun kv => kv.1 == k)).map (fun kv => kv.2)

/-- Truthiness of a JavaScript value, as tested by `if` and by `||`. -/
def jTruthy : JVal → Bool
  | JVal.undef => false
  | .null => false
  | .bool b => b
  | .num q => if q = 0 then false else true
  | .str s => if s = "" then false else true
  | .arr _ => true
  | .obj _ => true

/-- Plain property access `v.k`: a TypeError on `undefined` and `null`, the
field (or `undefined` when the key is absent) on an object, and `undefined`
on the other values (none of the keys this script reads exists on a
primitive). -/
def jGetE : JVal → String → Except String JVal
  | JVal.undef, k => .error ("TypeError: cannot read properties of undefined (reading " ++ k ++ ")")
  | .null, k => .error ("TypeError: cannot read properties of null (reading " ++ k ++ ")")
  | .obj fs, k => .ok ((jField fs k).getD JVal.undef)
  | _, _ => .ok JVal.undef

/-- Optional-chain access `v?.k`: `undefined` instead of a TypeError when
`v` is `undefined` or `null`. -/
def jOptGet : JVal → String → JVal
  | JVal.undef, _ => JVal.undef
  | .null, _ => JVal.undef
  | .obj fs, k => (jField fs k).getD JVal.undef
  | _, _ => JVal.undef

/-- Embedding of `x || []`: the left operand when truthy, else an empty
array. -/
def jOrEmptyArr (v : JVal) : JVal :=
  if jTruthy v then v else .arr []

/-- Elements of an array value; calling `.map` on anything else is a
TypeError. -/
def jArrElems : JVal → Except String (List JVal)
  | .arr xs => .ok xs
  | JVal.undef => .error "TypeError: cannot read properties of undefined (reading map)"
  | .null => .error "TypeError: cannot read properties of null (reading map)"
  | _ => .error "TypeError: map is not a function"

/-- Embedding of `v.toFixed(1)`: defined only on numbers. -/
def jToFixed1 : JVal → Except String String
  | .num q => .ok (toFixed1 q)
  | JVal.undef => .error "TypeError: cannot read properties of undefined (reading toFixed)"
  | .null => .error "TypeError: cannot read properties of null (reading toFixed)"
  | _ => .error "TypeError: toFixed is not a function"

/-- Row shaping for the points-per-game section (src/leaders.js lines
59-66): rank, player, team, fixed-point ppg with unit, then pts and gp via
template literals, with property reads in source evaluation order. -/
def ppgRow (i : Nat) (p : JVal) : Except String (List JVal) :=
  match jGetE p "player" with
  | .error e => .error e
  | .ok player =>
    match jGetE p "team" with
    | .error e => .error e
    | .ok team =>
      match jGetE p "ppg" with
      | .error e => .error e
      | .ok ppgv =>
        match jToFixed1 ppgv with
        | .error e => .error e
        | .ok ppgS =>
          match jGetE p "pts" with
          | .error e => .error e
          | .ok pts =>
            match jGetE p "gp" with
            | .error e => .error e
            | .ok gp =>
                .ok [JVal.num ((i : Rat) + 1), player, team, JVal.str (ppgS ++ " ppg"),
                  JVal.str (jvalToString pts ++ " pts"), JVal.str (jvalToString gp ++ " gp")]

/-- Row shaping for the total-points section (src/leaders.js lines 74-80). -/
def ptsRow (i : Nat) (p : JVal) : Except String (List JVal) :=
  match jGetE p "player" with
  | .error e => .error e
  | .ok player =>
    match jGetE p "team" with
    | .error e => .error e
    | .ok team =>
      match jGetE p "pts" with
      | .error e => .error e
      | .ok pts =>
        match jGetE p "gp" with
        | .error e => .error e
        | .ok gp =>
            .ok [JVal.num ((i : Rat) + 1), player, team,
              JVal.str (jvalToString pts ++ " pts"), JVal.str (jvalToString gp ++ " gp")]

/-- Row shaping for the three-pointers section (src/leaders.js lines
88-94); the threes count is passed through as a raw cell value. -/
def threesRow (i : Nat) (p : JVal) : Except String (List JVal) :=
  match jGetE p "player" with
  | .error e => .error e
  | .ok player =>
    match jGetE p "team" with
    | .error e => .error e
    | .ok team =>
      match jGetE p "threes" with
      | .error e => .error e
      | .ok threes =>
        match jGetE p "gp" with
        | .error e => .error e
        | .ok gp =>
            .ok [JVal.num ((i : Rat) + 1), player, team, threes,
              JVal.str (jvalToString gp ++ " gp")]

/-- Row shaping for the team-offense section (src/leaders.js lines
102-108). -/
def teamOffRow (i : Nat) (t : JVal) : Except String (List JVal) :=
  match jGetE t "team" with
  | .error e => .error e
  | .ok team =>
    match jGetE t "ppg" with
    | .error e => .error e
    | .ok ppgv =>
      match jToFixed1 ppgv with
      | .error e => .error e
      | .ok ppgS =>
        match jGetE t "pts_for" with
        | .error e => .error e
        | .ok ptsFor =>
          match jGetE t "gp" with
          | .error e => .error e
          | .ok gp =>
              .ok [JVal.num ((i : Rat) + 1), team, JVal.str (ppgS ++ " ppg"),
                JVal.str (jvalToString ptsFor ++ " pts"), JVal.str (jvalToString gp ++ " gp")]

/-- Indexed traversal underlying `.map((p, i) => ...)`: builds each row in
order, propagating the first thrown exception. -/
def buildRowsAux (rowOf : Nat → JVal → Except String (List JVal)) :
    Nat → List JVal → Except String (List (List JVal))
  | _, [] => .ok []
  | i, p :: ps =>
    match rowOf i p with
    | .error e => .error e
    | .ok r =>
      match buildRowsAux rowOf (i + 1) ps with
      | .error e => .error e
      | .ok rs => .ok (r :: rs)

/-- Embedding of `src.map((p, i) => row)` on a leaderboard value: a
TypeError unless `src` is an array, else the rows in order. -/
def buildRows (rowOf : Nat → JVal → Except String (List JVal)) (src : JVal) :
    Except String (List (List JVal)) :=
  match jArrElems src with
  | .error e => .error e
  | .ok xs => buildRowsAux rowOf 0 xs

def ppgHeaders : List String := ["#", "Player", "Team", "PPG", "Total Pts", "GP"]

def ptsHeaders : List String := ["#", "Player", "Team", "Total Pts", "GP"]

def threesHeaders : List String := ["#", "Player", "Team", "3PM", "GP"]

def teamHeaders : List String := ["#", "Team", "PPG", "Total Pts", "GP"]

/-- Content of a display region: text nodes and table elements. -/
inductive Node where
  | text (s : String)
  | table (t : Table)
deriving DecidableEq

/-- The document elements the script looks up by id.  `none` means
`getElementById` found no such element; `some c` is the element with its
current child content. -/
structure Page where
  leadersUpdated : Option (List Node)
  leadersPpg : Option (List Node)
  leadersPts : Option (List Node)
  leadersThrees : Option (List Node)
  leadersTeams : Option (List Node)
  leadersContainer : Option (List Node)
deriving DecidableEq

/-- One guarded section (src/leaders.js lines 57-70 and its three
analogues): skipped when the region element is absent; otherwise the region
is cleared (`innerHTML = ""`) before the rows are computed, so a thrown
exception leaves it empty, and on success the one table is appended to the
cleared region.  Returns the region's new content and the escaped
exception, if any. -/
def renderSection (region : Option (List Node)) (hdrs : List String)
    (rowOf : Nat → JVal → Except String (List JVal)) (src : JVal) :
    Option (List Node) × Option String :=
  match region with
  | none => (none, none)
  | some _ =>
    match buildRows rowOf src with
    | .error e => (some [], some e)
    | .ok rows => (some [Node.table (makeTable hdrs rows)], none)

/-- Timestamp update (src/leaders.js lines 41-44): `updatedEl &&
data.generated_at` short-circuits, so the data property is only read when
the element exists. -/
def updatedStep (data : JVal) (page : Page) : Except String Page :=
  match page.leadersUpdated with
  | none => .ok page
  | some _ =>
    match jGetE data "generated_at" with
    | .error e => .error e
    | .ok g =>
        .ok (if jTruthy g then { page with leadersUpdated := some [Node.text (jvalToString g)] }
             else page)

/-- Embedding of `data.player_leaders?.points_per_game || []`
(src/leaders.js line 52): the first access is plain and can throw. -/
def extractPpg (data : JVal) : Except String JVal :=
  match jGetE data "player_leaders" with
  | .error e => .error e
  | .ok pl => .ok (jOrEmptyArr (jOptGet pl "points_per_game"))

/-- Embedding of `data.player_leaders?.points_total || []` (line 53). -/
def extractPts (data : JVal) : Except String JVal :=
  match jGetE data "player_leaders" with
  | .error e => .error e
  | .ok pl => .ok (jOrEmptyArr (jOptGet pl "points_total"))

/-- Embedding of `data.player_leaders?.three_pointers_made || []`
(line 54). -/
def extractThrees (data : JVal) : Except String JVal :=
  match jGetE data "player_leaders" with
  | .error e => .error e
  | .ok pl => .ok (jOrEmptyArr (jOptGet pl "three_pointers_made"))

/-- Embedding of `data.team_leaders?.offense_points_per_game || []`
(line 55). -/
def extractTeamOff (data : JVal) : Except String JVal :=
  match jGetE data "team_leaders" with
  | .error e => .error e
  | .ok tl => .ok (jOrEmptyArr (jOptGet tl "offense_points_per_game"))

/-- The fulfilled-promise callback (src/leaders.js lines 39-113): timestamp
update, the four extractions in source order (lines 52-55, each may throw,
later ones then never run), then the four guarded sections in source order.
The region elements were captured by `getElementById` before any mutation
(lines 47-50), so each section is guarded by the original page's region
presence.  Returns the mutated page together with the exception that
escaped the callback, if any; mutations made before a throw persist, and
sections after a throw never run. -/
def renderLeaders (data : JVal) (page : Page) : Page × Option String :=
  match updatedStep data page with
  | .error e => (page, some e)
  | .ok page1 =>
    match extractPpg data with
    | .error e => (page1, some e)
    | .ok ppgL =>
      match extractPts data with
      | .error e => (page1, some e)
      | .ok ptsL =>
        match extractThrees data with
        | .error e => (page1, some e)
        | .ok threesL =>
          match extractTeamOff data with
          | .error e => (page1, some e)
          | .ok teamL =>
            match renderSection page1.leadersPpg ppgHeaders ppgRow ppgL with
            | (c1, some e) => ({ page1 with leadersPpg := c1 }, some e)
            | (c1, none) =>
              match renderSection page1.leadersPts ptsHeaders ptsRow ptsL with
              | (c2, some e) =>
                  ({ page1 with leadersPpg := c1, leadersPts := c2 }, some e)
              | (c2, none) =>
                match renderSection page1.leadersThrees threesHeaders threesRow threesL with
                | (c3, some e) =>
                    ({ page1 with leadersPpg := c1, leadersPts := c2, leadersThrees := c3 },
                      some e)
                | (c3, none) =>
                  match renderSection page1.leadersTeams teamHeaders teamOffRow teamL with
                  | (c4, e4) =>
                      ({ page1 with
                          leadersPpg := c1
                          leadersPts := c2
                          leadersThrees := c3
                          leadersTeams := c4 }, e4)

/-- The catch handler (src/leaders.js lines 114-120), which sets
`container.textContent` to a static message when the container element
exists.  Modelled from the spec: the page HTML is not part of src/, and per
the spec's failure surface ("swapping all four display regions for a single
static error message") the four display regions live inside the
leaders-container element, so replacing the container's content with the
message text removes all four regions from the document. -/
def applyCatch (page : Page) : Page :=
  match page.leadersContainer with
  | none => page
  | some _ =>
      { page with
        leadersContainer := some [Node.text "Error loading leaders data."]
        leadersPpg := none
        leadersPts := none
        leadersThrees := none
        leadersTeams := none }

/-- The whole promise chain: a rejected fetch or parse goes straight to the
catch handler; a fulfilled one runs the render callback, whose thrown
exception (if any) also lands in the catch handler. -/
def loadLeaders (fetched : Except String JVal) (page : Page) : Page :=
  match fetched with
  | .error _ => applyCatch page
  | .ok data =>
    let r := renderLeaders data page
    match r.2 with
    | some _ => applyCatch r.1
    | none => r.1

/-- A well-formed player record, used to exercise the pipeline on concrete
input. -/
def sampleRecord : JVal := .obj [("player", .str "A. Example"), ("team", .str "XYZ"),
  ("ppg", .num 23), ("pts", .num 812), ("gp", .num 35), ("threes", .num 70)]

/-- A well-formed input document with one entry per leaderboard. -/
def sampleData : JVal := .obj [("generated_at", .str "2026-10-01"),
  ("player_leaders", .obj [
    ("points_per_game", .arr [sampleRecord]),
    ("points_total", .arr [sampleRecord]),
    ("three_pointers_made", .arr [sampleRecord])]),
  ("team_leaders", .obj [("offense_points_per_game", .arr
    [.obj [("team", .str "XYZ"), ("ppg", .num 81), ("pts_for", .num 2800), ("gp", .num 35)]])])]

/-- A page on which every element lookup succeeds, each element initially
empty. -/
def fullPage : Page := ⟨some [], some [], some [], some [], some [], some []⟩

/-- An input document whose only points-per-game record lacks the `ppg`
key, so `p.ppg.toFixed(1)` is a property read on `undefined`. -/
def badPpgData : JVal := .obj [("player_leaders", .obj [("points_per_game",
  .arr [.obj [("player", .str "A"), ("team", .str "B"), ("pts", .num 10), ("gp", .num 2)]])])]

/-- Whether a region's content is exactly one table element and nothing
else. -/
def isOneTable : Option (List Node) → Bool
  | some [Node.table _] => true
  | _ => false

theorem updatedStep_preserves (data : JVal) (page page1 : Page)
    (h : updatedStep data page = .ok page1) :
    page1.leadersPpg = page.leadersPpg ∧ page1.leadersPts = page.leadersPts ∧
    page1.leadersThrees = page.leadersThrees ∧ page1.leadersTeams = page.leadersTeams ∧
    page1.leadersContainer = page.leadersContainer := by
  unfold updatedStep at h
  cases hu : page.leadersUpdated with
  | none =>
      rw [hu] at h
      cases h
      exact ⟨rfl, rfl, rfl, rfl, rfl⟩
  | some c =>
      rw [hu] at h
      cases hg : jGetE data "generated_at" with
      | error e => rw [hg] at h; simp at h
      | ok g =>
          rw [hg] at h
          cases h
          cases hb : jTruthy g <;> simp [hb]

theorem renderSection_absent (hdrs : List String)
    (rowOf : Nat → JVal → Except String (List JVal)) (src : JVal) :
    renderSection none hdrs rowOf src = (none, none) := rfl

theorem renderSection_present_ok (c : List Node) (hdrs : List String)
    (rowOf : Nat → JVal → Except String (List JVal)) (src : JVal)
    (h : (renderSection (some c) hdrs rowOf src).2 = none) :
    ∃ rows, buildRows rowOf src = .ok rows ∧
      (renderSection (some c) hdrs rowOf src).1 =
        some [Node.table (makeTable hdrs rows)] := by
  unfold renderSection at h ⊢
  cases hb : buildRows rowOf src with
  | error e => rw [hb] at h; simp at h
  | ok rows => exact ⟨rows, rfl, by simp⟩

theorem renderLeaders_success_shape (data : JVal) (page : Page)
    (hsucc : (renderLeaders data page).2 = none) :
    ∃ ppgL ptsL threesL teamL,
      extractPpg data = .ok ppgL ∧ extractPts data = .ok ptsL ∧
      extractThrees data = .ok threesL ∧ extractTeamOff data = .ok teamL ∧
      (renderLeaders data page).1.leadersPpg =
        (renderSection page.leadersPpg ppgHeaders ppgRow ppgL).1 ∧
      (renderLeaders data page).1.leadersPts =
        (renderSection page.leadersPts ptsHeaders ptsRow ptsL).1 ∧
      (renderLeaders data page).1.leadersThrees =
        (renderSection page.leadersThrees threesHeaders threesRow threesL).1 ∧
      (renderLeaders data page).1.leadersTeams =
        (renderSection page.leadersTeams teamHeaders teamOffRow teamL).1 ∧
      (renderSection page.leadersPpg ppgHeaders ppgRow ppgL).2 = none ∧
      (renderSection page.leadersPts ptsHeaders ptsRow ptsL).2 = none ∧
      (renderSection page.leadersThrees threesHeaders threesRow threesL).2 = none ∧
      (renderSection page.leadersTeams teamHeaders teamOffRow teamL).2 = none := by
  unfold renderLeaders at hsucc ⊢
  cases hu : updatedStep data page with
  | error e => rw [hu] at hsucc; simp at hsucc
  | ok page1 =>
    rw [hu] at hsucc
    obtain ⟨hp1, hp2, hp3, hp4, hp5⟩ := updatedStep_preserves data page page1 hu
    dsimp only at hsucc ⊢
    rw [hp1, hp2, hp3, hp4] at hsucc ⊢
    cases h1 : extractPpg data with
    | error e => rw [h1] at hsucc; simp at hsucc
    | ok ppgL =>
      rw [h1] at hsucc
      dsimp only at hsucc ⊢
      cases h2 : extractPts data with
      | error e => rw [h2] at hsucc; simp at hsucc
      | ok ptsL =>
        rw [h2] at hsucc
        dsimp only at hsucc ⊢
        cases h3 : extractThrees data with
        | error e => rw [h3] at hsucc; simp at hsucc
        | ok threesL =>
          rw [h3] at hsucc
          dsimp only at hsucc ⊢
          cases h4 : extractTeamOff data with
          | error e => rw [h4] at hsucc; simp at hsucc
          | ok teamL =>
            rw [h4] at hsucc
            dsimp only at hsucc ⊢
            cases hs1 : renderSection page.leadersPpg ppgHeaders ppgRow ppgL with
            | mk c1 e1 =>
              rw [hs1] at hsucc
              cases e1 with
              | some e => simp at hsucc
              | none =>
                dsimp only at hsucc ⊢
                cases hs2 : renderSection page.leadersPts ptsHeaders ptsRow ptsL with
                | mk c2 e2 =>
                  rw [hs2] at hsucc
                  cases e2 with
                  | some e => simp at hsucc
                  | none =>
                    dsimp only at hsucc ⊢
                    cases hs3 : renderSection page.leadersThrees threesHeaders threesRow threesL with
                    | mk c3 e3 =>
                      rw [hs3] at hsucc
                      cases e3 with
                      | some e => simp at hsucc
                      | none =>
                        dsimp only at hsucc ⊢
                        cases hs4 : renderSection page.leadersTeams teamHeaders teamOffRow teamL with
                        | mk c4 e4 =>
                          rw [hs4] at hsucc
                          dsimp only at hsucc ⊢
                          exact ⟨ppgL, ptsL, threesL, teamL, rfl, rfl, rfl, rfl,
                            by rw [hs1], by rw [hs2], by rw [hs3], by rw [hs4],
                            by rw [hs1], by rw [hs2], by rw [hs3],
                            by rw [hs4]; exact hsucc⟩

/-- C5: an input document whose top-level `player_leaders` or
`team_leaders` field is absent, or whose nested leaderboard field is
absent, yields an empty sequence for the corresponding leaderboard — never
an error — and a section rendered from an empty sequence is a table with
its headers and zero body rows; in particular a document missing
`team_leaders` entirely yields a team-leaders table with a header and no
body rows. -/
theorem absent_fields_default_empty :
    (∀ fs : List (String × JVal), jField fs "player_leaders" = none →
      extractPpg (.obj fs) = .ok (.arr []) ∧ extractPts (.obj fs) = .ok (.arr []) ∧
      extractThrees (.obj fs) = .ok (.arr [])) ∧
    (∀ fs : List (String × JVal), jField fs "team_leaders" = none →
      extractTeamOff (.obj fs) = .ok (.arr [])) ∧
    (∀ fs gs : List (String × JVal), jField fs "player_leaders" = some (.obj gs) →
      jField gs "points_per_game" = none → extractPpg (.obj fs) = .ok (.arr [])) ∧
    (∀ fs gs : List (String × JVal), jField fs "player_leaders" = some (.obj gs) →
      jField gs "points_total" = none → extractPts (.obj fs) = .ok (.arr [])) ∧
    (∀ fs gs : List (String × JVal), jField fs "player_leaders" = some (.obj gs) →
      jField gs "three_pointers_made" = none → extractThrees (.obj fs) = .ok (.arr [])) ∧
    (∀ fs gs : List (String × JVal), jField fs "team_leaders" = some (.obj gs) →
      jField gs "offense_points_per_game" = none → extractTeamOff (.obj fs) = .ok (.arr [])) ∧
    (∀ (c : List Node) (hdrs : List String) (rowOf : Nat → JVal → Except String (List JVal)),
      renderSection (some c) hdrs rowOf (.arr []) =
        (some [Node.table (makeTable hdrs [])], none)) ∧
    (∀ (fs : List (String × JVal)) (page : Page), jField fs "team_leaders" = none →
      (renderLeaders (.obj fs) page).2 = none →
      page.leadersTeams.isSome = true →
      (renderLeaders (.obj fs) page).1.leadersTeams =
        some [Node.table (makeTable teamHeaders [])]) := by
  have hext : ∀ fs : List (String × JVal), jField fs "team_leaders" = none →
      extractTeamOff (.obj fs) = .ok (.arr []) := by
    intro fs h
    simp [extractTeamOff, jGetE, h, jOptGet, jOrEmptyArr, jTruthy]
  have hsec : ∀ (c : List Node) (hdrs : List String)
      (rowOf : Nat → JVal → Except String (List JVal)),
      renderSection (some c) hdrs rowOf (.arr []) =
        (some [Node.table (makeTable hdrs [])], none) := by
    intro c hdrs rowOf
    simp [renderSection, buildRows, jArrElems, buildRowsAux]
  refine ⟨?_, hext, ?_, ?_, ?_, ?_, hsec, ?_⟩
  · intro fs h
    refine ⟨?_, ?_, ?_⟩ <;>
      simp [extractPpg, extractPts, extractThrees, jGetE, h, jOptGet, jOrEmptyArr, jTruthy]
  · intro fs gs h hg
    simp [extractPpg, jGetE, h, jOptGet, hg, jOrEmptyArr, jTruthy]
  · intro fs gs h hg
    simp [extractPts, jGetE, h, jOptGet, hg, jOrEmptyArr, jTruthy]
  · intro fs gs h hg
    simp [extractThrees, jGetE, h, jOptGet, hg, jOrEmptyArr, jTruthy]
  · intro fs gs h hg
    simp [extractTeamOff, jGetE, h, jOptGet, hg, jOrEmptyArr, jTruthy]
  · intro fs page h hsucc hsome
    obtain ⟨ppgL, ptsL, threesL, teamL, e1, e2, e3, e4, r1, r2, r3, r4, s1, s2, s3, s4⟩ :=
      renderLeaders_success_shape (.obj fs) page hsucc
    have h2 := hext fs h
    rw [e4] at h2
    injection h2 with h2
    subst h2
    obtain ⟨c, hc⟩ := Option.isSome_iff_exists.mp hsome
    rw [r4, hc, hsec c teamHeaders teamOffRow]

theorem absent_fields_default_empty_witness :
    (renderLeaders (JVal.obj []) fullPage).1.leadersTeams =
      some [Node.table (makeTable teamHeaders [])] :=
  absent_fields_default_empty.2.2.2.2.2.2.2 [] fullPage rfl rfl rfl

/-- C6: a rejected fetch or a failed parse is recovered only at the top of
the promise chain: the catch handler swaps all four display regions for the
single static message in the container, and no leaderboard section is
rendered after the failure.  (The containment of the four regions in the
`leaders-container` element comes from the page HTML, which is not part of
src/, and is modelled from the spec — see `applyCatch`.) -/
theorem fetch_failure_recovered_at_top (page : Page) (err : String) (c : List Node)
    (hc : page.leadersContainer = some c) :
    (loadLeaders (.error err) page).leadersContainer =
      some [Node.text "Error loading leaders data."] ∧
    (loadLeaders (.error err) page).leadersPpg = none ∧
    (loadLeaders (.error err) page).leadersPts = none ∧
    (loadLeaders (.error err) page).leadersThrees = none ∧
    (loadLeaders (.error err) page).leadersTeams = none := by
  simp [loadLeaders, applyCatch, hc]

theorem fetch_failure_recovered_at_top_witness :
    (loadLeaders (.error "NetworkError") fullPage).leadersContainer =
      some [Node.text "Error loading leaders data."] ∧
    (loadLeaders (.error "NetworkError") fullPage).leadersPpg = none :=
  ⟨(fetch_failure_recovered_at_top fullPage "NetworkError" [] rfl).1,
   (fetch_failure_recovered_at_top fullPage "NetworkError" [] rfl).2.1⟩

/-- C7 as stated is false: a points-per-game record that lacks the `ppg`
key makes `p.ppg.toFixed(1)` a property read on `undefined`, so the render
callback throws instead of producing an "undefined"-shaped cell. -/
theorem missing_ppg_key_throws :
    (renderLeaders badPpgData fullPage).2 =
      some "TypeError: cannot read properties of undefined (reading toFixed)" := rfl

/-- C7 (amended): a leaderboard record missing expected keys that are only
read and coerced (player, team, pts, gp, threes, pts_for) is processed
without an error, the missing cells taking "undefined"-shaped values; but a
record whose `ppg` key is absent in the points-per-game or team-offense
sections raises a TypeError from `.toFixed(1)` on `undefined`. -/
theorem missing_keys_undefined_cells :
    (∀ (i : Nat) (fs : List (String × JVal)),
      ptsRow i (.obj fs) = .ok [JVal.num ((i : Rat) + 1),
        (jField fs "player").getD JVal.undef, (jField fs "team").getD JVal.undef,
        JVal.str (jvalToString ((jField fs "pts").getD JVal.undef) ++ " pts"),
        JVal.str (jvalToString ((jField fs "gp").getD JVal.undef) ++ " gp")]) ∧
    (∀ (i : Nat) (fs : List (String × JVal)),
      threesRow i (.obj fs) = .ok [JVal.num ((i : Rat) + 1),
        (jField fs "player").getD JVal.undef, (jField fs "team").getD JVal.undef,
        (jField fs "threes").getD JVal.undef,
        JVal.str (jvalToString ((jField fs "gp").getD JVal.undef) ++ " gp")]) ∧
    (∀ (i : Nat) (fs : List (String × JVal)) (q : Rat), jField fs "ppg" = some (.num q) →
      ppgRow i (.obj fs) = .ok [JVal.num ((i : Rat) + 1),
        (jField fs "player").getD JVal.undef, (jField fs "team").getD JVal.undef,
        JVal.str (toFixed1 q ++ " ppg"),
        JVal.str (jvalToString ((jField fs "pts").getD JVal.undef) ++ " pts"),
        JVal.str (jvalToString ((jField fs "gp").getD JVal.undef) ++ " gp")]) ∧
    (∀ (i : Nat) (fs : List (String × JVal)) (q : Rat), jField fs "ppg" = some (.num q) →
      teamOffRow i (.obj fs) = .ok [JVal.num ((i : Rat) + 1),
        (jField fs "team").getD JVal.undef, JVal.str (toFixed1 q ++ " ppg"),
        JVal.str (jvalToString ((jField fs "pts_for").getD JVal.undef) ++ " pts"),
        JVal.str (jvalToString ((jField fs "gp").getD JVal.undef) ++ " gp")]) ∧
    (∀ (i : Nat) (fs : List (String × JVal)), jField fs "ppg" = none →
      ppgRow i (.obj fs) =
        .error "TypeError: cannot read properties of undefined (reading toFixed)") ∧
    (∀ (i : Nat) (fs : List (String × JVal)), jField fs "ppg" = none →
      teamOffRow i (.obj fs) =
        .error "TypeError: cannot read properties of undefined (reading toFixed)") := by
  refine ⟨?_, ?_, ?_, ?_, ?_, ?_⟩
  · intro i fs
    simp [ptsRow, jGetE]
  · intro i fs
    simp [threesRow, jGetE]
  · intro i fs q h
    simp [ppgRow, jGetE, h, jToFixed1]
  · intro i fs q h
    simp [teamOffRow, jGetE, h, jToFixed1]
  · intro i fs h
    simp [ppgRow, jGetE, h, jToFixed1]
  · intro i fs h
    simp [teamOffRow, jGetE, h, jToFixed1]

theorem missing_keys_undefined_cells_witness :
    ppgRow 0 (JVal.obj [("player", JVal.str "A")]) =
      .error "TypeError: cannot read properties of undefined (reading toFixed)" :=
  missing_keys_undefined_cells.2.2.2.2.1 0 [("player", JVal.str "A")] rfl

/-- C8: whenever the render callback succeeds, every display region that
was present ends up holding exactly one table element and nothing else (its
previous content having been cleared by `innerHTML = ""` before the append). -/
theorem success_writes_single_table (data : JVal) (page : Page)
    (hsucc : (renderLeaders data page).2 = none) :
    (page.leadersPpg.isSome = true →
      isOneTable (renderLeaders data page).1.leadersPpg = true) ∧
    (page.leadersPts.isSome = true →
      isOneTable (renderLeaders data page).1.leadersPts = true) ∧
    (page.leadersThrees.isSome = true →
      isOneTable (renderLeaders data page).1.leadersThrees = true) ∧
    (page.leadersTeams.isSome = true →
      isOneTable (renderLeaders data page).1.leadersTeams = true) := by
  obtain ⟨ppgL, ptsL, threesL, teamL, e1, e2, e3, e4, r1, r2, r3, r4, s1, s2, s3, s4⟩ :=
    renderLeaders_success_shape data page hsucc
  refine ⟨fun h => ?_, fun h => ?_, fun h => ?_, fun h => ?_⟩
  · obtain ⟨c, hc⟩ := Option.isSome_iff_exists.mp h
    rw [hc] at s1 r1
    obtain ⟨rows, hb, hout⟩ := renderSection_present_ok c ppgHeaders ppgRow ppgL s1
    rw [r1, hout]
    rfl
  · obtain ⟨c, hc⟩ := Option.isSome_iff_exists.mp h
    rw [hc] at s2 r2
    obtain ⟨rows, hb, hout⟩ := renderSection_present_ok c ptsHeaders ptsRow ptsL s2
    rw [r2, hout]
    rfl
  · obtain ⟨c, hc⟩ := Option.isSome_iff_exists.mp h
    rw [hc] at s3 r3
    obtain ⟨rows, hb, hout⟩ := renderSection_present_ok c threesHeaders threesRow threesL s3
    rw [r3, hout]
    rfl
  · obtain ⟨c, hc⟩ := Option.isSome_iff_exists.mp h
    rw [hc] at s4 r4
    obtain ⟨rows, hb, hout⟩ := renderSection_present_ok c teamHeaders teamOffRow teamL s4
    rw [r4, hout]
    rfl

theorem success_writes_single_table_witness :
    isOneTable (renderLeaders sampleData fullPage).1.leadersPpg = true :=
  (success_writes_single_table sampleData fullPage rfl).1 rfl

theorem ppgRow_head (i : Nat) (p : JVal) (cells : List JVal)
    (h : ppgRow i p = .ok cells) : cells.head? = some (JVal.num ((i : Rat) + 1)) := by
  unfold ppgRow at h
  repeat' split at h
  all_goals cases h
  all_goals rfl

theorem ptsRow_head (i : Nat) (p : JVal) (cells : List JVal)
    (h : ptsRow i p = .ok cells) : cells.head? = some (JVal.num ((i : Rat) + 1)) := by
  unfold ptsRow at h
  repeat' split at h
  all_goals cases h
  all_goals rfl

theorem threesRow_head (i : Nat) (p : JVal) (cells : List JVal)
    (h : threesRow i p = .ok cells) : cells.head? = some (JVal.num ((i : Rat) + 1)) := by
  unfold threesRow at h
  repeat' split at h
  all_goals cases h
  all_goals rfl

theorem teamOffRow_head (i : Nat) (t : JVal) (cells : List JVal)
    (h : teamOffRow i t = .ok cells) : cells.head? = some (JVal.num ((i : Rat) + 1)) := by
  unfold teamOffRow at h
  repeat' split at h
  all_goals cases h
  all_goals rfl

theorem buildRowsAux_rank (rowOf : Nat → JVal → Except String (List JVal))
    (hhead : ∀ (i : Nat) (p : JVal) (cells : List JVal), rowOf i p = .ok cells →
      cells.head? = some (JVal.num ((i : Rat) + 1))) :
    ∀ (xs : List JVal) (i : Nat) (rows : List (List JVal)),
      buildRowsAux rowOf i xs = .ok rows →
      ∀ j : Nat, j < rows.length →
        (rows[j]?.bind List.head?) = some (JVal.num (((i + j : Nat) : Rat) + 1)) := by
  intro xs
  induction xs with
  | nil =>
      intro i rows h j hj
      unfold buildRowsAux at h
      cases h
      simp at hj
  | cons p ps ih =>
      intro i rows h j hj
      unfold buildRowsAux at h
      cases hr : rowOf i p with
      | error e => rw [hr] at h; cases h
      | ok r =>
        rw [hr] at h
        cases haux : buildRowsAux rowOf (i + 1) ps with
        | error e => rw [haux] at h; cases h
        | ok rs =>
          rw [haux] at h
          cases h
          cases j with
          | zero =>
              simp only [List.getElem?_cons_zero, Option.bind_some, Nat.add_zero]
              exact hhead i p r hr
          | succ m =>
              have hm : m < rs.length := by
                simp only [List.length_cons] at hj
                omega
              have hrec := ih (i + 1) rs haux m hm
              have hcast : (i + 1 + m : Nat) = (i + (m + 1) : Nat) := by omega
              rw [hcast] at hrec
              simpa using hrec

/-- C9: in every leaderboard section, the first cell of each body row is
the row's one-based rank: the row built from the element at zero-based
index j carries j + 1 as its first cell, so ranks ascend 1, 2, 3, ... in
output order. -/
theorem rows_ranked_one_based :
    ∀ rowOf : Nat → JVal → Except String (List JVal),
      (rowOf = ppgRow ∨ rowOf = ptsRow ∨ rowOf = threesRow ∨ rowOf = teamOffRow) →
      ∀ (src : JVal) (rows : List (List JVal)), buildRows rowOf src = .ok rows →
        ∀ j : Nat, j < rows.length →
          (rows[j]?.bind List.head?) = some (JVal.num ((j : Rat) + 1)) := by
  intro rowOf hdisp src rows h j hj
  have hhead : ∀ (i : Nat) (p : JVal) (cells : List JVal), rowOf i p = .ok cells →
      cells.head? = some (JVal.num ((i : Rat) + 1)) := by
    rcases hdisp with h1 | h2 | h3 | h4
    · subst h1; exact ppgRow_head
    · subst h2; exact ptsRow_head
    · subst h3; exact threesRow_head
    · subst h4; exact teamOffRow_head
  unfold buildRows at h
  cases ha : jArrElems src with
  | error e => rw [ha] at h; cases h
  | ok xs =>
      rw [ha] at h
      have := buildRowsAux_rank rowOf hhead xs 0 rows h j hj
      simpa using this

/-- Concrete first row produced by the total-points row shaper on a record
with no keys, used to exercise the rank property. -/
def rankWitnessRow : List JVal := [JVal.num (((0 : Nat) : Rat) + 1), JVal.undef, JVal.undef,
  JVal.str "undefined pts", JVal.str "undefined gp"]

theorem rows_ranked_one_based_witness :
    ([rankWitnessRow][0]?.bind List.head?) = some (JVal.num (((0 : Nat) : Rat) + 1)) :=
  rows_ranked_one_based ptsRow (Or.inr (Or.inl rfl)) (JVal.arr [JVal.obj []])
    [rankWitnessRow] rfl 0 (by decide)

/-- C10: a section whose display-region element is absent is skipped
entirely — its region stays absent, no table is built for it, and the skip
raises no error — while each present section's output is exactly its own
section's render of its own extracted list, independent of which other
regions are absent. -/
theorem absent_region_section_skipped (data : JVal) (page : Page)
    (hsucc : (renderLeaders data page).2 = none) :
    (∀ (hdrs : List String) (rowOf : Nat → JVal → Except String (List JVal)) (src : JVal),
      renderSection none hdrs rowOf src = (none, none)) ∧
    (page.leadersPpg = none → (renderLeaders data page).1.leadersPpg = none) ∧
    (page.leadersPts = none → (renderLeaders data page).1.leadersPts = none) ∧
    (page.leadersThrees = none → (renderLeaders data page).1.leadersThrees = none) ∧
    (page.leadersTeams = none → (renderLeaders data page).1.leadersTeams = none) ∧
    (∀ L, extractPpg data = .ok L →
      (renderLeaders data page).1.leadersPpg =
        (renderSection page.leadersPpg ppgHeaders ppgRow L).1) ∧
    (∀ L, extractPts data = .ok L →
      (renderLeaders data page).1.leadersPts =
        (renderSection page.leadersPts ptsHeaders ptsRow L).1) ∧
    (∀ L, extractThrees data = .ok L →
      (renderLeaders data page).1.leadersThrees =
        (renderSection page.leadersThrees threesHeaders threesRow L).1) ∧
    (∀ L, extractTeamOff data = .ok L →
      (renderLeaders data page).1.leadersTeams =
        (renderSection page.leadersTeams teamHeaders teamOffRow L).1) := by
  obtain ⟨ppgL, ptsL, threesL, teamL, e1, e2, e3, e4, r1, r2, r3, r4, s1, s2, s3, s4⟩ :=
    renderLeaders_success_shape data page hsucc
  refine ⟨fun hdrs rowOf src => rfl, ?_, ?_, ?_, ?_, ?_, ?_, ?_, ?_⟩
  · intro h; rw [r1, h]; rfl
  · intro h; rw [r2, h]; rfl
  · intro h; rw [r3, h]; rfl
  · intro h; rw [r4, h]; rfl
  · intro L hL; rw [e1] at hL; injection hL with hL; subst hL; exact r1
  · intro L hL; rw [e2] at hL; injection hL with hL; subst hL; exact r2
  · intro L hL; rw [e3] at hL; injection hL with hL; subst hL; exact r3
  · intro L hL; rw [e4] at hL; injection hL with hL; subst hL; exact r4

/-- A page whose points-per-game region element is missing while the other
elements are present. -/
def pageNoPpg : Page := ⟨some [], none, some [], some [], some [], some []⟩

theorem absent_region_section_skipped_witness :
    (renderLeaders sampleData pageNoPpg).1.leadersPpg = none ∧
    (renderLeaders sampleData pageNoPpg).1.leadersPts =
      (renderSection pageNoPpg.leadersPts ptsHeaders ptsRow (JVal.arr [sampleRecord])).1 := by
  have h := absent_region_section_skipped sampleData pageNoPpg rfl
  exact ⟨h.2.1 rfl, h.2.2.2.2.2.2.1 (JVal.arr [sampleRecord]) rfl⟩
